import Mathlib

/-!
Verification of the invoice extraction-and-validation pipeline.

Shallow embedding of the Python sources:
 - `src/invoice_extractor/models.py` (data model, Pydantic construction checks)
 - `src/invoice_extractor/validator.py` (business rules, confidence, pipeline)
 - `src/invoice_extractor/llm_gateway.py` (retry/fallback gateway)
 - `functions/gcp/v1/src/functions/data_extractor/extractor.py` (functions gateway,
   fenced-code stripping)

Modelling conventions:
 - Python `Decimal` and `float` values are modelled by exact rationals (ℚ).
 - Dates are modelled by integers (ordinal day numbers); date comparison is the
   integer order.
 - Python `str` is modelled by Lean `String`, except in the fenced-code stripping
   algorithm where `List Char` is used so the strip/split/join steps can be
   reasoned about structurally.
 - Wall-clock time is not modelled: `latency_ms` fields are fixed to 0 and the
   backoff sleeps are recorded as a list of wait durations (in seconds).
 - Network attempts of a provider are modelled by a function from the attempt
   index to the attempt's outcome (content or raised-exception text).
-/

namespace InvoiceExtractor

/-! ### Decimal helpers

`Decimal.quantize(Decimal("0.01"))` rounds to two decimal places with the
default `ROUND_HALF_EVEN` mode. -/

/-- Python's builtin `abs` on exact numbers. -/
def pyAbs (q : ℚ) : ℚ := if q < 0 then -q else q

/-- Python's builtin `max` on two numbers (returns the first on ties). -/
def pyMax (a b : ℚ) : ℚ := if a < b then b else a

/-- Python's builtin `min` on two numbers (returns the first on ties). -/
def pyMin (a b : ℚ) : ℚ := if b < a then b else a

/-- Round a rational to an integer, ties to the even integer
(Python `Decimal`'s default `ROUND_HALF_EVEN`). -/
def roundHalfEven (q : ℚ) : ℤ :=
  let f := ⌊q⌋
  let frac := q - f
  if frac < 1/2 then f
  else if 1/2 < frac then f + 1
  else if f % 2 = 0 then f else f + 1

/-- `x.quantize(Decimal("0.01"))`: round to two decimal places, half to even. -/
def quantize2 (q : ℚ) : ℚ := (roundHalfEven (q * 100) : ℚ) / 100

/-! ### Data model (`models.py`) -/

/-- `LineItem` (models.py): description, quantity, unit price. -/
structure LineItem where
  description : String
  quantity : ℤ
  unit_price : ℚ
deriving DecidableEq

/-- Computed field `LineItem.amount = (quantity * unit_price).quantize("0.01")`. -/
def LineItem.amount (li : LineItem) : ℚ := quantize2 (li.quantity * li.unit_price)

/-- `ExtractedInvoice` (models.py), flattened fields.  An inhabitant of this
structure corresponds to a successfully constructed Pydantic model; the
construction-time checks live in `validate_schema` below. -/
structure ExtractedInvoice where
  invoice_id : String
  vendor_name : String
  vendor_type : String
  invoice_date : ℤ
  due_date : ℤ
  currency : String
  line_items : List LineItem
  subtotal : ℚ
  tax_amount : ℚ
  commission_rate : ℚ
  commission_amount : ℚ
  total_amount : ℚ
deriving DecidableEq

/-- Members of the `VendorType` enum (models.py). -/
def vendorTypes : List String := ["ubereats", "doordash", "grubhub", "ifood", "rappi", "other"]

/-- Allowed currency literals on `ExtractedInvoice.currency` (models.py). -/
def currencies : List String := ["BRL", "USD", "EUR", "GBP", "CAD", "AUD"]

/-! ### Raw input to schema validation

`validate_schema(data: dict)` feeds a parsed-JSON dictionary into
`ExtractedInvoice(**data)`.  A raw dictionary is modelled with `Option` fields:
`none` stands for an absent key (or, for the three decimal fields handled by
the `handle_null_decimals` validator, an explicit JSON null, which is likewise
replaced by the default 0). -/

/-- Raw (pre-validation) line item. -/
structure RawLineItem where
  description : Option String
  quantity : Option ℤ
  unit_price : Option ℚ
deriving DecidableEq

/-- Raw (pre-validation) invoice dictionary. -/
structure RawInvoice where
  invoice_id : Option String
  vendor_name : Option String
  vendor_type : Option String
  invoice_date : Option ℤ
  due_date : Option ℤ
  currency : Option String
  line_items : Option (List RawLineItem)
  subtotal : Option ℚ
  tax_amount : Option ℚ
  commission_rate : Option ℚ
  commission_amount : Option ℚ
  total_amount : Option ℚ
deriving DecidableEq

/-- Field-level checks of `LineItem` (models.py): required description of
length 1..500, quantity in 1..1000 (default 1), unit price ≥ 0 with at most
two decimal places. -/
def checkLineItem (r : RawLineItem) : List String :=
  (match r.description with
   | none => ["description: Field required"]
   | some s => if 1 ≤ s.length ∧ s.length ≤ 500 then [] else ["description: length out of range"]) ++
  (match r.quantity with
   | none => []
   | some q => if 1 ≤ q ∧ q ≤ 1000 then [] else ["quantity: out of range"]) ++
  (match r.unit_price with
   | none => ["unit_price: Field required"]
   | some p => if 0 ≤ p ∧ (p * 100).den = 1 then [] else ["unit_price: invalid"])

/-- Field-level (per-field) validation errors of `ExtractedInvoice(**data)`:
the `Field(...)` constraints of models.py, collected in declaration order.
An empty result means every field constraint passed. -/
def fieldErrors (raw : RawInvoice) : List String :=
  (match raw.invoice_id with
   | none => ["invoice_id: Field required"]
   | some s => if 1 ≤ s.length ∧ s.length ≤ 50 then [] else ["invoice_id: length out of range"]) ++
  (match raw.vendor_name with
   | none => ["vendor_name: Field required"]
   | some s => if 1 ≤ s.length ∧ s.length ≤ 200 then [] else ["vendor_name: length out of range"]) ++
  (match raw.vendor_type with
   | none => []
   | some s => if s ∈ vendorTypes then [] else ["vendor_type: not a valid enumeration member"]) ++
  (match raw.invoice_date with
   | none => ["invoice_date: Field required"]
   | some _ => []) ++
  (match raw.due_date with
   | none => ["due_date: Field required"]
   | some _ => []) ++
  (match raw.currency with
   | none => []
   | some s => if s ∈ currencies then [] else ["currency: not an allowed literal"]) ++
  ((raw.line_items.getD []).flatMap checkLineItem) ++
  (match raw.subtotal with
   | none => ["subtotal: Field required"]
   | some q => if 0 ≤ q then [] else ["subtotal: must be greater than or equal to 0"]) ++
  (if 0 ≤ raw.tax_amount.getD 0 then [] else ["tax_amount: must be greater than or equal to 0"]) ++
  (if 0 ≤ raw.commission_rate.getD 0 ∧ raw.commission_rate.getD 0 ≤ 1 then []
   else ["commission_rate: out of range"]) ++
  (if 0 ≤ raw.commission_amount.getD 0 then []
   else ["commission_amount: must be greater than or equal to 0"]) ++
  (match raw.total_amount with
   | none => ["total_amount: Field required"]
   | some q => if 0 ≤ q then [] else ["total_amount: must be greater than or equal to 0"])

/-- Build the invoice value from the raw fields (defaults as in models.py:
`vendor_type` defaults to `ubereats`, `currency` to `BRL`, the three optional
decimal fields to 0 via `handle_null_decimals`). -/
def buildInvoice (raw : RawInvoice) : ExtractedInvoice :=
  { invoice_id := raw.invoice_id.getD ""
    vendor_name := raw.vendor_name.getD ""
    vendor_type := raw.vendor_type.getD "ubereats"
    invoice_date := raw.invoice_date.getD 0
    due_date := raw.due_date.getD 0
    currency := raw.currency.getD "BRL"
    line_items := (raw.line_items.getD []).map
      (fun r => ⟨r.description.getD "", r.quantity.getD 1, r.unit_price.getD 0⟩)
    subtotal := raw.subtotal.getD 0
    tax_amount := raw.tax_amount.getD 0
    commission_rate := raw.commission_rate.getD 0
    commission_amount := raw.commission_amount.getD 0
    total_amount := raw.total_amount.getD 0 }

/-- `validate_schema` (validator.py layer 1): `ExtractedInvoice(**data)` with the
per-field constraints, then the `validate_dates` model validator
(`due_date < invoice_date` raises).  `validate_line_items_total` and the
invoice-id format validator only warn and never fail. -/
def validate_schema (raw : RawInvoice) : Except (List String) ExtractedInvoice :=
  let errs := fieldErrors raw
  if errs ≠ [] then .error errs
  else
    let invoice := buildInvoice raw
    if invoice.due_date < invoice.invoice_date then
      .error ["due_date cannot be before invoice_date"]
    else
      .ok invoice

/-! ### Business rules (`validator.py` layer 2)

The source appends human-readable strings to `violations`; only two sites ever
append (BR-001 and BR-003), so each appended message is identified here by its
leading rule tag. -/

/-- Tag of a hard business-rule violation message appended by
`validate_business_rules`. -/
inductive Violation where
  | br001
  | br003
deriving DecidableEq

/-- `validate_business_rules` (validator.py): BR-001 fires when
`total_amount < subtotal + tax_amount - 0.05`; BR-003 fires when
`|commission_amount - (subtotal*commission_rate).quantize("0.01")| > 0.02`.
BR-002/BR-005/BR-006 are handled at the schema layer and BR-004 is a warning
that is never appended. -/
def validate_business_rules (invoice : ExtractedInvoice) : List Violation :=
  let violations : List Violation := []
  let expected_minimum := invoice.subtotal + invoice.tax_amount
  let violations :=
    if invoice.total_amount < expected_minimum - (0.05 : ℚ) then violations ++ [.br001]
    else violations
  let expected_commission := quantize2 (invoice.subtotal * invoice.commission_rate)
  let commission_diff := pyAbs (invoice.commission_amount - expected_commission)
  let tolerance_br003 : ℚ := 0.02
  let violations :=
    if commission_diff > tolerance_br003 then violations ++ [.br003]
    else violations
  violations

/-! ### Confidence scoring (`validator.py` layer 3) -/

/-- The six required fields checked for completeness. -/
def requiredFields : List String :=
  ["invoice_id", "vendor_name", "invoice_date", "due_date", "subtotal", "total_amount"]

/-- `getattr(invoice, field, None) is not None` for a required field: on a
constructed `ExtractedInvoice` each of the six required attributes is a
non-optional field, so the check is true for every one of them. -/
def requiredFieldPresent (_invoice : ExtractedInvoice) (_field : String) : Bool := true

/-- `calculate_confidence` (validator.py):
`0.40*completeness + 0.30*consistency + 0.30*llm_confidence`, with
`llm_confidence` defaulting to 0.80 and the result clamped to [0, 1]. -/
def calculate_confidence (invoice : ExtractedInvoice) (llm_confidence : Option ℚ) : ℚ :=
  let present_count := (requiredFields.filter (fun f => requiredFieldPresent invoice f)).length
  let completeness : ℚ := (present_count : ℚ) / (requiredFields.length : ℚ)
  let business_violations := validate_business_rules invoice
  let total_rules : ℚ := 6
  let rules_passed : ℚ := total_rules - (business_violations.length : ℚ)
  let consistency : ℚ := if total_rules > 0 then rules_passed / total_rules else 1
  let llm_conf := llm_confidence.getD (0.80 : ℚ)
  let confidence := (0.40 : ℚ) * completeness + (0.30 : ℚ) * consistency + (0.30 : ℚ) * llm_conf
  pyMax 0 (pyMin 1 confidence)

/-! ### Full validation pipeline (`validator.py`) -/

/-- `ValidationResult` (models.py); business-rule violations are carried as
their rule tags. -/
structure ValidationResult where
  is_valid : Bool
  schema_valid : Bool
  business_rules_valid : Bool
  confidence_score : ℚ
  schema_errors : List String
  business_rule_errors : List Violation
  warnings : List String
deriving DecidableEq

/-- `validate_extraction` (validator.py): JSON parse, then the three layers.
The outcome of `json.loads` (an external library call) is taken as the input:
`.error e` is a `JSONDecodeError` with message `e`, `.ok data` the parsed
dictionary. -/
def validate_extraction (parsed : Except String RawInvoice) (llm_confidence : Option ℚ) :
    ValidationResult :=
  match parsed with
  | .error e =>
      { is_valid := false, schema_valid := false, business_rules_valid := false
        confidence_score := 0, schema_errors := ["JSON parsing error: " ++ e]
        business_rule_errors := [], warnings := [] }
  | .ok data =>
      match validate_schema data with
      | .error schema_errors =>
          { is_valid := false, schema_valid := false, business_rules_valid := false
            confidence_score := 0, schema_errors := schema_errors
            business_rule_errors := [], warnings := [] }
      | .ok invoice =>
          let business_violations := validate_business_rules invoice
          let business_rules_valid := business_violations.isEmpty
          let confidence := calculate_confidence invoice llm_confidence
          let is_valid := business_rules_valid
          { is_valid := is_valid, schema_valid := true
            business_rules_valid := business_rules_valid
            confidence_score := confidence, schema_errors := []
            business_rule_errors := business_violations, warnings := [] }

/-! ### LLM gateway (`llm_gateway.py`)

A provider's successive network attempts are modelled by a function from the
attempt index (0-based) to that attempt's outcome: `.ok content` for a
non-empty response, `.error msg` for any raised exception (transport error,
timeout, empty response).  `time.sleep` calls are recorded in the returned
trace as a list of wait durations in seconds. -/

/-- Outcome of each attempt of one provider. -/
abbrev ProviderBehavior := Nat → Except String String

/-- `GeminiConfig` (llm_gateway.py). -/
structure GeminiConfig where
  model : String := "gemini-2.0-flash"
  region : String := "us-central1"
  max_retries : Nat := 2
  timeout : Nat := 30
deriving DecidableEq

/-- `OpenRouterConfig` (llm_gateway.py). -/
structure OpenRouterConfig where
  api_key : String
  model : String := "anthropic/claude-3.5-sonnet"
  max_retries : Nat := 2
  timeout : Nat := 30
deriving DecidableEq

/-- `LLMResponse` (llm_gateway.py).  `latency_ms` is wall-clock time, fixed to 0
in this model. -/
structure LLMResponse where
  success : Bool
  content : Option String
  provider : String
  latency_ms : ℤ := 0
  tokens_used : Option Nat := none
  error_message : Option String := none
deriving DecidableEq

/-- A provider call together with its observable trace: the number of times the
provider was invoked and the backoff waits (seconds) slept between attempts. -/
structure CallTrace where
  resp : LLMResponse
  attempts : Nat
  waits : List Nat
deriving DecidableEq

/-- The retry loop shared by `call_gemini` and `call_openrouter`
(llm_gateway.py): `while retry_count <= max_retries`, on success return, on
exception increment `retry_count`, sleep `2 ** (retry_count - 1)` seconds if
another attempt remains, otherwise return the typed failure.  The first
argument after `max_retries` is the loop fuel (`max_retries + 1` iterations at
most); the fuel-0 case is the source's unreachable `Should never reach here`
return. -/
def callLoop (behavior : ProviderBehavior) (provider displayName : String)
    (max_retries : Nat) : Nat → Nat → CallTrace
  | 0, _ =>
      ⟨{ success := false, content := none, provider := provider
         error_message := some ("Unexpected error in call_" ++ provider) }, 0, []⟩
  | fuel + 1, retry_count =>
      match behavior retry_count with
      | .ok content =>
          ⟨{ success := true, content := some content, provider := provider }, 1, []⟩
      | .error e =>
          let rc := retry_count + 1
          if rc ≤ max_retries then
            let t := callLoop behavior provider displayName max_retries fuel rc
            ⟨t.resp, t.attempts + 1, 2 ^ (rc - 1) :: t.waits⟩
          else
            ⟨{ success := false, content := none, provider := provider
               error_message := some (displayName ++ " failed after " ++
                 toString max_retries ++ " retries: " ++ e) }, 1, []⟩

/-- Run the retry loop from `retry_count = 0` with enough fuel for the
`max_retries + 1` possible iterations. -/
def callProvider (behavior : ProviderBehavior) (provider displayName : String)
    (max_retries : Nat) : CallTrace :=
  callLoop behavior provider displayName max_retries (max_retries + 1) 0

/-- `call_gemini` (llm_gateway.py). -/
def call_gemini (behavior : ProviderBehavior) (config : GeminiConfig) : CallTrace :=
  callProvider behavior "gemini" "Gemini" config.max_retries

/-- `call_openrouter` (llm_gateway.py). -/
def call_openrouter (behavior : ProviderBehavior) (config : OpenRouterConfig) : CallTrace :=
  callProvider behavior "openrouter" "OpenRouter" config.max_retries

/-- `extract_with_fallback` (llm_gateway.py): try Gemini, on failure try
OpenRouter, and if both fail return the OpenRouter (last) error.  Besides the
returned `LLMResponse` the model exposes how many times each provider was
invoked: `(response, gemini_attempts, openrouter_attempts)`. -/
def extract_with_fallback (gemini_behavior openrouter_behavior : ProviderBehavior)
    (gemini_config : GeminiConfig) (openrouter_config : OpenRouterConfig) :
    LLMResponse × Nat × Nat :=
  let g := call_gemini gemini_behavior gemini_config
  if g.resp.success then (g.resp, g.attempts, 0)
  else
    let o := call_openrouter openrouter_behavior openrouter_config
    if o.resp.success then (o.resp, g.attempts, o.attempts)
    else (o.resp, g.attempts, o.attempts)

/-! ### Functions-pipeline gateway (`extractor.py`) -/

/-- The exceptions `_parse_and_validate` can raise. -/
inductive ParseFailure where
  | jsonDecodeError (msg : String)
  | valueError (msg : String)
deriving DecidableEq

/-- Outcome of `_parse_and_validate` on the provider's raw content.  The JSON
and Pydantic machinery is external; a run of `extract_invoice` is parameterised
by this parsing function. -/
abbrev ParseFn := Option String → Except ParseFailure ExtractedInvoice

/-- `InvoiceExtractionResult` (extractor.py), restricted to the fields the
claims are about. -/
structure InvoiceExtractionResult where
  success : Bool
  invoice : Option ExtractedInvoice
  provider : String
  latency_ms : ℤ
  confidence : ℚ
  error : Option String := none
  raw_response : Option String := none
deriving DecidableEq

/-- `_try_extraction` (extractor.py): run one adapter (its response is the
input), parse and validate its content. -/
def tryExtraction (resp : LLMResponse) (provider : String) (parse : ParseFn) :
    InvoiceExtractionResult :=
  if resp.success = false then
    { success := false, invoice := none, provider := provider
      latency_ms := resp.latency_ms, confidence := 0
      error := some (resp.error_message.getD "LLM extraction failed")
      raw_response := resp.content }
  else
    match parse resp.content with
    | .ok invoice =>
        { success := true, invoice := some invoice, provider := provider
          latency_ms := resp.latency_ms, confidence := 0.9
          raw_response := resp.content }
    | .error (.jsonDecodeError e) =>
        { success := false, invoice := none, provider := provider
          latency_ms := resp.latency_ms, confidence := 0
          error := some ("JSON parse error: " ++ e), raw_response := resp.content }
    | .error (.valueError e) =>
        { success := false, invoice := none, provider := provider
          latency_ms := resp.latency_ms, confidence := 0
          error := some ("Validation error: " ++ e), raw_response := resp.content }

/-- `extract_invoice` (extractor.py): primary first; on failure, the fallback
adapter if configured; if both fail, a combined `Both providers failed` error
naming both providers' error messages. -/
def extract_invoice (primary_response : LLMResponse) (fallback_response : Option LLMResponse)
    (parse : ParseFn) : InvoiceExtractionResult :=
  let result := tryExtraction primary_response "gemini" parse
  if result.success then result
  else
    match fallback_response with
    | some fresp =>
        let fallback_result := tryExtraction fresp "openrouter" parse
        if fallback_result.success then fallback_result
        else
          { success := false, invoice := none, provider := "openrouter"
            latency_ms := result.latency_ms + fallback_result.latency_ms
            confidence := 0
            error := some ("Both providers failed. Primary: " ++ result.error.getD "None" ++
              ". Fallback: " ++ fallback_result.error.getD "None")
            raw_response := fallback_result.raw_response }
    | none => result

/-! ### Fenced-code stripping (`_parse_and_validate`, extractor.py)

The cleaning performed before `json.loads`:

    cleaned = content.strip()
    if cleaned.startswith("```"):
        lines = cleaned.split("\n")
        start_idx = 1 if lines[0].startswith("```") else 0
        end_idx = -1 if lines[-1].strip() == "```" else len(lines)
        cleaned = "\n".join(lines[start_idx:end_idx]).strip()

Python strings are modelled here as `List Char` so `strip`, `split("\n")` and
`"\n".join` can be reasoned about structurally. -/

/-- Python `str.isspace` characters relevant to `str.strip()`. -/
def isPySpace (c : Char) : Bool :=
  c = ' ' || c = '\t' || c = '\n' || c = '\r' || c = '\x0b' || c = '\x0c'

/-- Characters of a Python string. -/
abbrev PyStr := List Char

/-- Leading-whitespace strip (`str.lstrip()`). -/
def lstrip (s : PyStr) : PyStr := s.dropWhile isPySpace

/-- Trailing-whitespace strip (`str.rstrip()`). -/
def rstrip (s : PyStr) : PyStr := (s.reverse.dropWhile isPySpace).reverse

/-- `str.strip()`. -/
def pyStrip (s : PyStr) : PyStr := rstrip (lstrip s)

/-- `str.split("\n")`: always a non-empty list of lines. -/
def splitNL : PyStr → List PyStr
  | [] => [[]]
  | c :: rest =>
      if c = '\n' then [] :: splitNL rest
      else
        match splitNL rest with
        | [] => [[c]]
        | l :: ls => (c :: l) :: ls

/-- `"\n".join(lines)`. -/
def joinNL : List PyStr → PyStr
  | [] => []
  | [l] => l
  | l :: ls => l ++ '\n' :: joinNL ls

/-- The three-backtick fence marker. -/
def fenceMarker : PyStr := "```".data

/-- A fence opening line with the customary `json` info string. -/
def fenceLineJson : PyStr := "```json".data

/-- `s.startswith("```")`. -/
def startsWithFence (s : PyStr) : Bool := fenceMarker.isPrefixOf s

/-- The cleaning step of `_parse_and_validate` (extractor.py): strip
whitespace, and if the text is fenced drop the fence lines, then strip again.
The cleaned text is what `json.loads` receives, so two contents that clean to
the same text parse identically. -/
def cleanContent (content : PyStr) : PyStr :=
  let cleaned := pyStrip content
  if startsWithFence cleaned then
    let lines := splitNL cleaned
    let start_idx := if startsWithFence (lines.headD []) then 1 else 0
    let kept := if pyStrip (lines.getLastD []) = fenceMarker
                then (lines.drop start_idx).dropLast
                else lines.drop start_idx
    pyStrip (joinNL kept)
  else cleaned

/-- Wrap raw text in a fenced code block: a ```` ```json ```` line above and a
```` ``` ```` line below. -/
def wrapFence (t : PyStr) : PyStr := fenceLineJson ++ '\n' :: (t ++ '\n' :: fenceMarker)

/-! ### Spec-side confidence formula (spec §4.4)

These definitions follow the specification's words, to be compared with
`calculate_confidence`, which is translated from the source. -/

/-- Spec §4.4: `completeness` = fraction of the 6 required fields present. -/
def spec_completeness (invoice : ExtractedInvoice) : ℚ :=
  ((requiredFields.filter (fun f => requiredFieldPresent invoice f)).length : ℚ) / 6

/-- Spec §4.4: `consistency = (6 - hard_violation_count) / 6`. -/
def spec_consistency (invoice : ExtractedInvoice) : ℚ :=
  (6 - ((validate_business_rules invoice).length : ℚ)) / 6

/-- Spec §4.4: `confidence = 0.40*completeness + 0.30*consistency +
0.30*provider_confidence`, provider confidence defaulting to 0.80, clamped to
[0, 1]. -/
def spec_confidence (invoice : ExtractedInvoice) (provider_confidence : Option ℚ) : ℚ :=
  pyMax 0 (pyMin 1 ((0.40 : ℚ) * spec_completeness invoice +
    (0.30 : ℚ) * spec_consistency invoice +
    (0.30 : ℚ) * provider_confidence.getD (0.80 : ℚ)))


/-! ### Concrete test vectors

Concrete inputs used to witness or refute the claims; numeric values follow
the spec's end-to-end vectors and the repository's sample fixtures. -/

/-- The spec's end-to-end vector: subtotal 1480.00, tax 0, commission rate
0.25, commission amount 370.00, total 1110.00 (the repository's Uber Eats
sample fixture, without line items). -/
def invC2 : ExtractedInvoice :=
  { invoice_id := "UE-2026-001234", vendor_name := "Test Restaurant ABC"
    vendor_type := "ubereats", invoice_date := 100, due_date := 114
    currency := "USD", line_items := []
    subtotal := 1480.00, tax_amount := 0, commission_rate := 0.25
    commission_amount := 370.00, total_amount := 1110.00 }

/-- An invoice satisfying every business rule: total = subtotal + tax and
commission = subtotal * rate exactly. -/
def invGood : ExtractedInvoice :=
  { invoice_id := "UE-2026-000001", vendor_name := "Consistent Vendor"
    vendor_type := "ubereats", invoice_date := 50, due_date := 80
    currency := "USD", line_items := []
    subtotal := 100.00, tax_amount := 10.00, commission_rate := 0.10
    commission_amount := 10.00, total_amount := 110.00 }

/-- The spec's BR-001 end-to-end vector as a raw dictionary:
subtotal 1480.00, tax 0, total 900.00. -/
def rawBR001 : RawInvoice :=
  { invoice_id := some "UE-2025-0001", vendor_name := some "Vendor"
    vendor_type := some "ubereats", invoice_date := some 100, due_date := some 114
    currency := some "USD", line_items := none
    subtotal := some 1480.00, tax_amount := some 0, commission_rate := some 0
    commission_amount := some 0, total_amount := some 900.00 }

/-- Raw dictionary whose fields all pass their constraints but whose due date
precedes its invoice date. -/
def rawBadDates : RawInvoice :=
  { invoice_id := some "UE-2025-0001", vendor_name := some "Vendor"
    vendor_type := some "ubereats", invoice_date := some 200, due_date := some 100
    currency := some "USD", line_items := none
    subtotal := some 1480.00, tax_amount := some 0, commission_rate := some 0
    commission_amount := some 0, total_amount := some 1480.00 }

/-- An empty raw dictionary: every required field is missing. -/
def rawEmptyDict : RawInvoice :=
  { invoice_id := none, vendor_name := none, vendor_type := none
    invoice_date := none, due_date := none, currency := none
    line_items := none, subtotal := none, tax_amount := none
    commission_rate := none, commission_amount := none, total_amount := none }

/-- A Gemini provider whose every attempt raises. -/
def alwaysFailGemini : ProviderBehavior := fun _ => .error "gemini transport error"

/-- An OpenRouter provider whose every attempt raises. -/
def alwaysFailOpenRouter : ProviderBehavior := fun _ => .error "openrouter transport error"

/-- A failed primary adapter response for `extract_invoice`. -/
def primaryFailResponse : LLMResponse :=
  { success := false, content := none, provider := "gemini"
    error_message := some "Gemini failed after 2 retries: transport error" }

/-- A failed fallback adapter response for `extract_invoice`. -/
def fallbackFailResponse : LLMResponse :=
  { success := false, content := none, provider := "openrouter"
    error_message := some "OpenRouter failed after 2 retries: transport error" }

/-- A parse outcome that always raises `json.JSONDecodeError`. -/
def parseAlwaysJsonError : ParseFn := fun _ => .error (.jsonDecodeError "Expecting value")

/-- A parse outcome that always succeeds with the consistent sample invoice. -/
def parseAlwaysOk : ParseFn := fun _ => .ok invGood

/-- Raw text that is itself already a fenced block whose inner payload is
valid JSON. -/
def alreadyFenced : PyStr := "```json\n[1, 2]\n```".data

/-! ### Retry-loop invariants -/

/-- Invariant of `callLoop`, by induction on the remaining fuel: starting at
`retry_count = rc` with `rc + fuel = max_retries + 1`, the loop invokes the
provider at most `fuel` more times, returns a failure only after exactly
`fuel` more invocations, sleeps `2 ^ (rc + i)` seconds before the `i`-th
remaining retry, always reports the requested provider, and succeeds exactly
when some attempt in `rc..max_retries` returns content. -/
lemma callLoop_spec (behavior : ProviderBehavior) (provider displayName : String) (m : Nat) :
    ∀ fuel rc, rc + fuel = m + 1 →
      (callLoop behavior provider displayName m fuel rc).attempts ≤ fuel ∧
      (callLoop behavior provider displayName m fuel rc).resp.provider = provider ∧
      ((callLoop behavior provider displayName m fuel rc).resp.success = false →
          (callLoop behavior provider displayName m fuel rc).attempts = fuel) ∧
      (∀ i, i < (callLoop behavior provider displayName m fuel rc).waits.length →
          (callLoop behavior provider displayName m fuel rc).waits.getD i 0 = 2 ^ (rc + i)) ∧
      ((callLoop behavior provider displayName m fuel rc).resp.success = true ↔
          ∃ k, rc ≤ k ∧ k ≤ m ∧ ∃ c, behavior k = .ok c) := by
  intro fuel
  induction fuel with
  | zero =>
      intro rc h
      simp only [callLoop]
      refine ⟨Nat.le_refl 0, trivial, fun _ => trivial, ?_, ?_⟩
      · intro i hi
        simp at hi
      · constructor
        · intro hfalse
          simp at hfalse
        · rintro ⟨k, hk1, hk2, -⟩
          omega
  | succ fuel ih =>
      intro rc h
      cases hb : behavior rc with
      | ok c =>
          simp only [callLoop, hb]
          refine ⟨Nat.succ_le_succ (Nat.zero_le fuel), trivial, ?_, ?_, ?_⟩
          · intro hfalse
            simp at hfalse
          · intro i hi
            simp at hi
          · constructor
            · intro _
              exact ⟨rc, Nat.le_refl rc, by omega, c, hb⟩
            · intro _
              trivial
      | error e =>
          by_cases hrc : rc + 1 ≤ m
          · have hinv : rc + 1 + fuel = m + 1 := by omega
            obtain ⟨ih1, ih2, ih3, ih4, ih5⟩ := ih (rc + 1) hinv
            simp only [callLoop, hb, if_pos hrc]
            refine ⟨Nat.succ_le_succ ih1, ih2, ?_, ?_, ?_⟩
            · intro hfalse
              exact congrArg Nat.succ (ih3 hfalse)
            · intro i hi
              match i with
              | 0 =>
                  simp only [List.getD_cons_zero]
                  congr 1
              | j + 1 =>
                  simp only [List.length_cons, Nat.add_lt_add_iff_right] at hi
                  simp only [List.getD_cons_succ]
                  have hw := ih4 j hi
                  rw [hw]
                  congr 1
                  omega
            · rw [ih5]
              constructor
              · rintro ⟨k, hk1, hk2, hc⟩
                exact ⟨k, by omega, hk2, hc⟩
              · rintro ⟨k, hk1, hk2, c', hc⟩
                refine ⟨k, ?_, hk2, c', hc⟩
                rcases Nat.eq_or_lt_of_le hk1 with heq | hlt
                · exfalso
                  rw [← heq, hb] at hc
                  exact Except.noConfusion hc
                · omega
          · have hfuel : fuel = 0 := by omega
            simp only [callLoop, hb, if_neg hrc]
            refine ⟨by omega, trivial, ?_, ?_, ?_⟩
            · intro _
              omega
            · intro i hi
              simp at hi
            · constructor
              · intro hfalse
                simp at hfalse
              · rintro ⟨k, hk1, hk2, c', hc⟩
                have hkrc : k = rc := by omega
                rw [hkrc, hb] at hc
                exact Except.noConfusion hc

/-- `callProvider` invokes the provider at most `max_retries + 1` times. -/
lemma callProvider_attempts_le (behavior : ProviderBehavior) (provider displayName : String)
    (m : Nat) : (callProvider behavior provider displayName m).attempts ≤ m + 1 :=
  (callLoop_spec behavior provider displayName m (m + 1) 0 (by omega)).1

/-- `callProvider` labels its response with the requested provider. -/
lemma callProvider_provider (behavior : ProviderBehavior) (provider displayName : String)
    (m : Nat) : (callProvider behavior provider displayName m).resp.provider = provider :=
  (callLoop_spec behavior provider displayName m (m + 1) 0 (by omega)).2.1

/-- A failure response is returned only after all `max_retries + 1` attempts. -/
lemma callProvider_failure_attempts (behavior : ProviderBehavior) (provider displayName : String)
    (m : Nat) (h : (callProvider behavior provider displayName m).resp.success = false) :
    (callProvider behavior provider displayName m).attempts = m + 1 :=
  (callLoop_spec behavior provider displayName m (m + 1) 0 (by omega)).2.2.1 h

/-- The wait before the `i`-th retry (0-based) is `2 ^ i` seconds. -/
lemma callProvider_waits (behavior : ProviderBehavior) (provider displayName : String)
    (m : Nat) (i : Nat) (hi : i < (callProvider behavior provider displayName m).waits.length) :
    (callProvider behavior provider displayName m).waits.getD i 0 = 2 ^ i := by
  have := (callLoop_spec behavior provider displayName m (m + 1) 0 (by omega)).2.2.2.1 i hi
  simpa using this

/-- `callProvider` succeeds exactly when some attempt within the retry window
returns content. -/
lemma callProvider_success_iff (behavior : ProviderBehavior) (provider displayName : String)
    (m : Nat) :
    (callProvider behavior provider displayName m).resp.success = true ↔
      ∃ k, k ≤ m ∧ ∃ c, behavior k = .ok c := by
  have hiff := (callLoop_spec behavior provider displayName m (m + 1) 0 (by omega)).2.2.2.2
  constructor
  · intro hs
    obtain ⟨k, -, hk2, hc⟩ := hiff.1 hs
    exact ⟨k, hk2, hc⟩
  · rintro ⟨k, hk2, hc⟩
    exact hiff.2 ⟨k, Nat.zero_le k, hk2, hc⟩

/-! ### Structural lemmas for the fence-stripping algorithm -/

/-- Dropping a prefix of characters that all satisfy the predicate. -/
lemma dropWhile_all_append (p : Char → Bool) (a b : PyStr) (h : ∀ c ∈ a, p c = true) :
    (a ++ b).dropWhile p = b.dropWhile p := by
  induction a with
  | nil => rfl
  | cons c cs ihc =>
      have hc : p c = true := h c (List.mem_cons_self c cs)
      simp only [List.cons_append, List.dropWhile_cons, hc, if_true]
      exact ihc (fun x hx => h x (List.mem_cons_of_mem c hx))

/-- `lstrip` ignores an all-whitespace prefix. -/
lemma lstrip_all_space_append (ws s : PyStr) (h : ∀ c ∈ ws, isPySpace c = true) :
    lstrip (ws ++ s) = lstrip s :=
  dropWhile_all_append isPySpace ws s h

/-- A list already beginning with a character violating the predicate is
untouched by `dropWhile`, even with anything appended. -/
lemma dropWhile_append_of_fixed (p : Char → Bool) (a b : PyStr)
    (ha : a.dropWhile p = a) (hne : a ≠ []) : (a ++ b).dropWhile p = a ++ b := by
  cases a with
  | nil => exact absurd rfl hne
  | cons c cs =>
      cases hpc : p c with
      | false =>
          simp only [List.cons_append, List.dropWhile_cons, hpc]
          simp
      | true =>
          exfalso
          have h1 : List.dropWhile p (c :: cs) = List.dropWhile p cs := by
            simp [List.dropWhile_cons, hpc]
          rw [h1] at ha
          have h2 : (List.dropWhile p cs).length ≤ cs.length :=
            (List.dropWhile_suffix p).length_le
          rw [ha] at h2
          simp at h2

/-- A string already beginning with non-whitespace is untouched by `lstrip`,
so `lstrip` of that string followed by anything is the identity. -/
lemma lstrip_append_of_fixed (a b : PyStr) (ha : lstrip a = a) (hne : a ≠ []) :
    lstrip (a ++ b) = a ++ b :=
  dropWhile_append_of_fixed isPySpace a b ha hne

/-- `rstrip` ignores an all-whitespace suffix. -/
lemma rstrip_all_space_append (s ws : PyStr) (h : ∀ c ∈ ws, isPySpace c = true) :
    rstrip (s ++ ws) = rstrip s := by
  simp only [rstrip, List.reverse_append]
  rw [dropWhile_all_append isPySpace ws.reverse s.reverse
    (fun c hc => h c (List.mem_reverse.mp hc))]

/-- A string already ending with non-whitespace is untouched by `rstrip`,
so `rstrip` of anything followed by that string is the identity. -/
lemma rstrip_append_of_fixed (a b : PyStr) (hb : rstrip b = b) (hne : b ≠ []) :
    rstrip (a ++ b) = a ++ b := by
  have h1 := congrArg List.reverse hb
  simp only [rstrip, List.reverse_reverse] at h1
  have hrevne : b.reverse ≠ [] := by
    simpa using hne
  simp only [rstrip, List.reverse_append]
  rw [dropWhile_append_of_fixed isPySpace b.reverse a.reverse h1 hrevne]
  simp

/-- `splitNL` never returns the empty list. -/
lemma splitNL_ne_nil (s : PyStr) : splitNL s ≠ [] := by
  cases s with
  | nil => simp [splitNL]
  | cons c cs =>
      simp only [splitNL]
      split
      · simp
      · split
        · simp
        · simp

/-- `split("\n")` distributes over an explicit newline. -/
lemma splitNL_append (x y : PyStr) : splitNL (x ++ '\n' :: y) = splitNL x ++ splitNL y := by
  induction x with
  | nil => simp [splitNL]
  | cons c cs ihc =>
      by_cases hc : c = '\n'
      · subst hc
        simp [splitNL, ihc]
      · cases hcs : splitNL cs with
        | nil => exact absurd hcs (splitNL_ne_nil cs)
        | cons l ls =>
            simp only [List.cons_append, splitNL, if_neg hc, List.append_eq]
            rw [ihc, hcs]
            simp

/-- `joinNL` of a list headed by `l` with a non-empty tail. -/
lemma joinNL_cons (l : PyStr) (ls : List PyStr) (h : ls ≠ []) :
    joinNL (l :: ls) = l ++ '\n' :: joinNL ls := by
  cases ls with
  | nil => exact absurd rfl h
  | cons l2 ls2 => rfl

/-- `"\n".join` undoes `split("\n")`. -/
lemma joinNL_splitNL (s : PyStr) : joinNL (splitNL s) = s := by
  induction s with
  | nil => rfl
  | cons c cs ihc =>
      by_cases hc : c = '\n'
      · subst hc
        have h1 : splitNL ('\n' :: cs) = [] :: splitNL cs := by
          simp [splitNL]
        rw [h1, joinNL_cons [] (splitNL cs) (splitNL_ne_nil cs), ihc]
        rfl
      · simp only [splitNL, if_neg hc]
        cases hcs : splitNL cs with
        | nil => exact absurd hcs (splitNL_ne_nil cs)
        | cons l ls =>
            cases ls with
            | nil =>
                rw [hcs] at ihc
                simp only [joinNL] at ihc ⊢
                rw [ihc]
            | cons l2 ls2 =>
                rw [hcs] at ihc
                rw [joinNL_cons (c :: l) (l2 :: ls2) (by simp)]
                rw [joinNL_cons l (l2 :: ls2) (by simp)] at ihc
                simp only [List.cons_append]
                rw [ihc]

/-- `wrapFence` written with the closing fence split off as a suffix. -/
lemma wrapFence_eq_concat (t : PyStr) :
    wrapFence t = (fenceLineJson ++ ('\n' :: t) ++ ['\n']) ++ fenceMarker := by
  simp [wrapFence]

/-- A fenced-wrapped text surrounded by whitespace strips down to exactly the
wrapped block. -/
lemma pyStrip_wrapFence (t ws1 ws2 : PyStr) (h1 : ∀ c ∈ ws1, isPySpace c = true)
    (h2 : ∀ c ∈ ws2, isPySpace c = true) :
    pyStrip (ws1 ++ (wrapFence t ++ ws2)) = wrapFence t := by
  unfold pyStrip
  rw [lstrip_all_space_append ws1 (wrapFence t ++ ws2) h1]
  have hshape : wrapFence t ++ ws2 = fenceLineJson ++ (('\n' :: (t ++ '\n' :: fenceMarker)) ++ ws2) := by
    simp [wrapFence]
  have hlf : lstrip (wrapFence t ++ ws2) = wrapFence t ++ ws2 := by
    rw [hshape]
    rw [lstrip_append_of_fixed fenceLineJson _ (by decide) (by decide)]
  rw [hlf]
  rw [rstrip_all_space_append (wrapFence t) ws2 h2]
  rw [wrapFence_eq_concat]
  exact rstrip_append_of_fixed _ fenceMarker (by decide) (by decide)

/-- The fenced-wrapped text starts with the fence marker. -/
lemma startsWithFence_wrapFence (t : PyStr) : startsWithFence (wrapFence t) = true := by
  unfold startsWithFence
  rw [ List.isPrefixOf_iff_prefix]
  have hpre : fenceMarker <+: fenceLineJson := ⟨"json".data, by decide⟩
  have happ : fenceLineJson <+: wrapFence t := by
    rw [wrapFence]
    exact List.prefix_append fenceLineJson _
  exact hpre.trans happ

/-- Splitting the wrapped block into lines: the fence opening line, the lines
of the wrapped text, and the closing fence line. -/
lemma splitNL_wrapFence (t : PyStr) :
    splitNL (wrapFence t) = fenceLineJson :: (splitNL t ++ [fenceMarker]) := by
  unfold wrapFence
  rw [splitNL_append fenceLineJson (t ++ '\n' :: fenceMarker)]
  rw [splitNL_append t fenceMarker]
  have h1 : splitNL fenceLineJson = [fenceLineJson] := by decide
  have h2 : splitNL fenceMarker = [fenceMarker] := by decide
  rw [h1, h2]
  simp

/-- Cleaning a fenced-wrapped text (with any surrounding whitespace) yields the
stripped wrapped text. -/
lemma cleanContent_wrapFence (t ws1 ws2 : PyStr) (h1 : ∀ c ∈ ws1, isPySpace c = true)
    (h2 : ∀ c ∈ ws2, isPySpace c = true) :
    cleanContent (ws1 ++ (wrapFence t ++ ws2)) = pyStrip t := by
  have hhead : startsWithFence fenceLineJson = true := by decide
  have hstripfence : pyStrip fenceMarker = fenceMarker := by decide
  have hlast : (fenceLineJson :: (splitNL t ++ [fenceMarker])).getLastD [] = fenceMarker := by
    rw [show fenceLineJson :: (splitNL t ++ [fenceMarker]) =
          (fenceLineJson :: splitNL t) ++ [fenceMarker] from by simp]
    exact List.getLastD_concat _ _ _
  unfold cleanContent
  rw [pyStrip_wrapFence t ws1 ws2 h1 h2]
  simp only [startsWithFence_wrapFence t, if_true, splitNL_wrapFence t, List.headD_cons,
    hhead, hlast, hstripfence, List.drop_succ_cons, List.drop_zero]
  simp [List.dropLast_concat, joinNL_splitNL]

/-- The source scorer computes exactly the spec formula. -/
lemma calculate_confidence_eq_spec (invoice : ExtractedInvoice) (pc : Option ℚ) :
    calculate_confidence invoice pc = spec_confidence invoice pc := by
  simp only [calculate_confidence, spec_confidence, spec_completeness, spec_consistency,
    requiredFields]
  norm_num

/-- Every one of the six required fields is present on a constructed invoice,
so the completeness component is 1. -/
lemma spec_completeness_eq_one (invoice : ExtractedInvoice) :
    spec_completeness invoice = 1 := by
  simp only [spec_completeness, requiredFields, requiredFieldPresent]
  norm_num

/-- Only the BR-001 and BR-003 sites ever append a violation. -/
lemma length_validate_business_rules_le_two (invoice : ExtractedInvoice) :
    (validate_business_rules invoice).length ≤ 2 := by
  simp only [validate_business_rules]
  split_ifs <;> simp

/-! ### Claims about the validator -/

/-- C3: for every invoice and optional provider confidence, the confidence
scorer returns exactly `0.40*completeness + 0.30*consistency +
0.30*provider_confidence` (completeness the fraction of the 6 required fields
present, consistency `(6 - hard_violation_count)/6`, provider confidence
defaulting to 0.80, result clamped to [0,1]); in particular with all required
fields present, zero hard violations and provider confidence 1.0 the score is
exactly 1.0. -/
theorem confidence_formula_exact (invoice : ExtractedInvoice) (pc : Option ℚ) :
    calculate_confidence invoice pc = spec_confidence invoice pc ∧
    ((validate_business_rules invoice).length = 0 →
        calculate_confidence invoice (some 1) = 1) := by
  refine ⟨calculate_confidence_eq_spec invoice pc, ?_⟩
  intro h0
  rw [calculate_confidence_eq_spec]
  simp only [spec_confidence, spec_consistency, h0, spec_completeness_eq_one, Option.getD_some]
  norm_num [pyMin, pyMax]

/-- C3 witness: the consistent sample invoice has no hard violations and with
provider confidence 1.0 scores exactly 1.0. -/
theorem confidence_formula_exact_witness : calculate_confidence invGood (some 1) = 1 :=
  (confidence_formula_exact invGood (some 1)).2
    (by norm_num [validate_business_rules, invGood, quantize2, roundHalfEven, pyAbs])

/-- C10: for every invoice, the completeness component is 1 (all six required
fields are mandatory at construction), the business-rule checker returns at
most two violations, hence consistency is at least 4/6 and the confidence
score with the default provider confidence 0.80 is at least 0.84. -/
theorem confidence_lower_bound (invoice : ExtractedInvoice) :
    spec_completeness invoice = 1 ∧
    (validate_business_rules invoice).length ≤ 2 ∧
    (4 / 6 : ℚ) ≤ spec_consistency invoice ∧
    (0.84 : ℚ) ≤ calculate_confidence invoice none := by
  have hlen := length_validate_business_rules_le_two invoice
  have hlenq : ((validate_business_rules invoice).length : ℚ) ≤ 2 := by
    exact_mod_cast hlen
  have hlen0 : (0 : ℚ) ≤ ((validate_business_rules invoice).length : ℚ) :=
    Nat.cast_nonneg _
  refine ⟨spec_completeness_eq_one invoice, hlen, ?_, ?_⟩
  · unfold spec_consistency
    linarith
  · rw [calculate_confidence_eq_spec]
    unfold spec_confidence
    rw [spec_completeness_eq_one]
    unfold spec_consistency pyMin pyMax
    simp only [Option.getD_none]
    split_ifs <;> linarith

/-- C10 witness: the sample vector scores at least 0.84 with the default
provider confidence. -/
theorem confidence_lower_bound_witness : (0.84 : ℚ) ≤ calculate_confidence invC2 none :=
  (confidence_lower_bound invC2).2.2.2

/-- C2 counterexample: on the spec's end-to-end vector (subtotal 1480.00,
tax 0, commission rate 0.25, commission amount 370.00, total 1110.00) the
business-rule checker does not report zero hard violations: BR-001 fires,
because 1110.00 < 1480.00 + 0 - 0.05. -/
theorem e2e_commission_vector_counterexample :
    validate_business_rules invC2 ≠ [] ∧
    Violation.br001 ∈ validate_business_rules invC2 := by
  have h : validate_business_rules invC2 = [.br001] := by
    norm_num [validate_business_rules, invC2, quantize2, roundHalfEven, pyAbs]
  rw [h]
  exact ⟨by simp, by simp⟩

/-- C2 amended: on the vector subtotal 1480.00, tax 0, commission rate 0.25,
commission amount 370.00, total 1110.00 the checker reports exactly one hard
violation (BR-001; the commission rule BR-003 passes), and with provider
confidence 0.9 the confidence score is 0.92, which is at least 0.9. -/
theorem e2e_commission_vector_amended :
    validate_business_rules invC2 = [.br001] ∧
    calculate_confidence invC2 (some 0.9) = 0.92 ∧
    (0.9 : ℚ) ≤ calculate_confidence invC2 (some 0.9) := by
  have h : validate_business_rules invC2 = [.br001] := by
    norm_num [validate_business_rules, invC2, quantize2, roundHalfEven, pyAbs]
  have hc : calculate_confidence invC2 (some 0.9) = 0.92 := by
    rw [calculate_confidence_eq_spec, spec_confidence, spec_completeness_eq_one,
      spec_consistency, h]
    norm_num [pyMin, pyMax]
  exact ⟨h, hc, by rw [hc]; norm_num⟩

/-- C4: BR-001 fires exactly when `total_amount < subtotal + tax_amount -
0.05`, never fires when the total exceeds `subtotal + tax_amount`, and on the
end-to-end vector subtotal 1480.00, tax 0, total 900.00 the full pipeline
returns `is_valid = false`. -/
theorem br001_total_floor (invoice : ExtractedInvoice) :
    (Violation.br001 ∈ validate_business_rules invoice ↔
        invoice.total_amount < invoice.subtotal + invoice.tax_amount - (0.05 : ℚ)) ∧
    (invoice.subtotal + invoice.tax_amount < invoice.total_amount →
        Violation.br001 ∉ validate_business_rules invoice) ∧
    (validate_extraction (.ok rawBR001) none).is_valid = false := by
  have hmem : Violation.br001 ∈ validate_business_rules invoice ↔
      invoice.total_amount < invoice.subtotal + invoice.tax_amount - (0.05 : ℚ) := by
    simp only [validate_business_rules]
    split_ifs with h1 h2 <;> simp_all
  refine ⟨hmem, ?_, ?_⟩
  · intro hgt hmemm
    have hlt := hmem.1 hmemm
    norm_num at hlt
    linarith
  · have hfe : fieldErrors rawBR001 = [] := by
      simp +decide [fieldErrors, rawBR001, vendorTypes, currencies, checkLineItem]
      norm_num
    have hvs : validate_schema rawBR001 = .ok (buildInvoice rawBR001) := by
      rw [validate_schema, hfe]
      norm_num [buildInvoice, rawBR001]
    rw [validate_extraction, hvs]
    norm_num [validate_business_rules, buildInvoice, rawBR001, quantize2, roundHalfEven, pyAbs]

/-- C4 witness: the sample vector (total 1110.00 below subtotal + tax =
1480.00) triggers BR-001. -/
theorem br001_total_floor_witness : Violation.br001 ∈ validate_business_rules invC2 :=
  (br001_total_floor invC2).1.2 (by norm_num [invC2])

/-- C8: every successfully constructed invoice satisfies
`invoice_date ≤ due_date`, and a raw input whose fields all pass their
constraints but whose due date strictly precedes its invoice date fails
construction with a validation error. -/
theorem due_date_invariant :
    (∀ raw invoice, validate_schema raw = .ok invoice →
        invoice.invoice_date ≤ invoice.due_date) ∧
    (∀ raw, fieldErrors raw = [] →
        (buildInvoice raw).due_date < (buildInvoice raw).invoice_date →
        ∃ errs, validate_schema raw = .error errs) := by
  constructor
  · intro raw invoice h
    simp only [validate_schema] at h
    by_cases he : fieldErrors raw ≠ []
    · rw [if_pos he] at h
      cases h
    · rw [if_neg he] at h
      by_cases hd : (buildInvoice raw).due_date < (buildInvoice raw).invoice_date
      · rw [if_pos hd] at h
        cases h
      · rw [if_neg hd] at h
        injection h with h2
        rw [← h2]
        omega
  · intro raw he hd
    refine ⟨["due_date cannot be before invoice_date"], ?_⟩
    simp only [validate_schema]
    rw [if_neg (by simp [he]), if_pos hd]

/-- C8 witness: the well-formed raw vector builds an invoice with
`invoice_date ≤ due_date`, and the same raw with dates swapped fails
construction. -/
theorem due_date_invariant_witness :
    (buildInvoice rawBR001).invoice_date ≤ (buildInvoice rawBR001).due_date ∧
    ∃ errs, validate_schema rawBadDates = .error errs := by
  have hfe : fieldErrors rawBR001 = [] := by
    simp +decide [fieldErrors, rawBR001, vendorTypes, currencies, checkLineItem]
    norm_num
  have hvs : validate_schema rawBR001 = .ok (buildInvoice rawBR001) := by
    rw [validate_schema, hfe]
    norm_num [buildInvoice, rawBR001]
  have hfe2 : fieldErrors rawBadDates = [] := by
    simp +decide [fieldErrors, rawBadDates, vendorTypes, currencies, checkLineItem]
    norm_num
  refine ⟨due_date_invariant.1 rawBR001 (buildInvoice rawBR001) hvs, ?_⟩
  exact due_date_invariant.2 rawBadDates hfe2 (by norm_num [buildInvoice, rawBadDates])

/-- C9: the pipeline's overall validity always equals its business-rule
validity (the confidence score never influences validity), and on a JSON
parse failure or a schema failure the result has `is_valid = false`,
`business_rules_valid = false` and `confidence_score = 0`. -/
theorem validity_equals_business_rules :
    (∀ parsed pc, (validate_extraction parsed pc).is_valid =
        (validate_extraction parsed pc).business_rules_valid) ∧
    (∀ e pc, (validate_extraction (.error e) pc).is_valid = false ∧
        (validate_extraction (.error e) pc).business_rules_valid = false ∧
        (validate_extraction (.error e) pc).confidence_score = 0) ∧
    (∀ data pc errs, validate_schema data = .error errs →
        (validate_extraction (.ok data) pc).is_valid = false ∧
        (validate_extraction (.ok data) pc).business_rules_valid = false ∧
        (validate_extraction (.ok data) pc).confidence_score = 0) := by
  refine ⟨?_, ?_, ?_⟩
  · intro parsed pc
    cases parsed with
    | error e => rfl
    | ok data =>
        cases h : validate_schema data with
        | error errs => simp [validate_extraction, h]
        | ok invoice => simp [validate_extraction, h]
  · intro e pc
    exact ⟨rfl, rfl, rfl⟩
  · intro data pc errs h
    simp [validate_extraction, h]

/-- C9 witness: the empty dictionary fails schema validation and yields an
invalid result with zero confidence, and a JSON parse failure likewise. -/
theorem validity_equals_business_rules_witness :
    (validate_extraction (.ok rawEmptyDict) none).is_valid = false ∧
    (validate_extraction (.ok rawEmptyDict) none).confidence_score = 0 ∧
    (validate_extraction (.error "Expecting value") none).is_valid = false := by
  have hne : fieldErrors rawEmptyDict ≠ [] := by
    simp [fieldErrors, rawEmptyDict]
  have hvs : validate_schema rawEmptyDict = .error (fieldErrors rawEmptyDict) := by
    simp only [validate_schema]
    rw [if_pos hne]
  refine ⟨?_, ?_, ?_⟩
  · exact (validity_equals_business_rules.2.2 rawEmptyDict none (fieldErrors rawEmptyDict) hvs).1
  · exact (validity_equals_business_rules.2.2 rawEmptyDict none (fieldErrors rawEmptyDict) hvs).2.2
  · exact (validity_equals_business_rules.2.1 "Expecting value" none).1

/-! ### Claims about the gateway -/

/-- C6: a failing provider is invoked at most `max_retries + 1` times (default
`max_retries` is 2), the backoff wait before the `i`-th retry (1-based) is
`2 ^ (i - 1)` seconds, and a failure result is returned only after all
attempts are exhausted. -/
theorem retry_policy_bounds (behavior : ProviderBehavior) (config : GeminiConfig) :
    (call_gemini behavior config).attempts ≤ config.max_retries + 1 ∧
    (∀ i, 1 ≤ i → i ≤ (call_gemini behavior config).waits.length →
        (call_gemini behavior config).waits.getD (i - 1) 0 = 2 ^ (i - 1)) ∧
    ((call_gemini behavior config).resp.success = false →
        (call_gemini behavior config).attempts = config.max_retries + 1) ∧
    ({} : GeminiConfig).max_retries = 2 := by
  refine ⟨callProvider_attempts_le behavior "gemini" "Gemini" config.max_retries, ?_, ?_, rfl⟩
  · intro i h1 h2
    have h2a : i ≤ (callProvider behavior "gemini" "Gemini" config.max_retries).waits.length := h2
    exact callProvider_waits behavior "gemini" "Gemini" config.max_retries (i - 1) (by omega)
  · intro h
    exact callProvider_failure_attempts behavior "gemini" "Gemini" config.max_retries h

/-- C6 witness: with the default configuration a permanently failing provider
is invoked exactly 3 times and the first backoff wait is 1 second. -/
theorem retry_policy_bounds_witness :
    (call_gemini alwaysFailGemini {}).attempts = 3 ∧
    (call_gemini alwaysFailGemini {}).waits.getD 0 0 = 1 :=
  ⟨(retry_policy_bounds alwaysFailGemini {}).2.2.1 (by decide),
   (retry_policy_bounds alwaysFailGemini {}).2.1 1 (by decide) (by decide)⟩

/-- C5: if some primary attempt succeeds, the primary's response is returned
and the fallback is never invoked; if every primary attempt fails and some
fallback attempt succeeds, the result is successful and reports the fallback
provider; and in the functions pipeline a successful primary extraction is
returned as is, without consulting the fallback adapter. -/
theorem fallback_first_success (gB oB : ProviderBehavior)
    (gc : GeminiConfig) (oc : OpenRouterConfig) :
    ((∃ k, k ≤ gc.max_retries ∧ ∃ c, gB k = .ok c) →
        extract_with_fallback gB oB gc oc =
          ((call_gemini gB gc).resp, (call_gemini gB gc).attempts, 0) ∧
        (call_gemini gB gc).resp.success = true) ∧
    ((∀ k, k ≤ gc.max_retries → ∀ c, gB k ≠ .ok c) →
     (∃ k, k ≤ oc.max_retries ∧ ∃ c, oB k = .ok c) →
        (extract_with_fallback gB oB gc oc).1.success = true ∧
        (extract_with_fallback gB oB gc oc).1.provider = "openrouter") ∧
    (∀ (p : LLMResponse) (fb : Option LLMResponse) (parse : ParseFn),
        (tryExtraction p "gemini" parse).success = true →
        extract_invoice p fb parse = tryExtraction p "gemini" parse) := by
  refine ⟨?_, ?_, ?_⟩
  · intro hex
    have hgs : (call_gemini gB gc).resp.success = true :=
      (callProvider_success_iff gB "gemini" "Gemini" gc.max_retries).2 hex
    exact ⟨by simp [extract_with_fallback, hgs], hgs⟩
  · intro hfail hex
    have hgf : (call_gemini gB gc).resp.success = false := by
      cases hs : (call_gemini gB gc).resp.success
      · rfl
      · exfalso
        obtain ⟨k, hk, c, hc⟩ :=
          (callProvider_success_iff gB "gemini" "Gemini" gc.max_retries).1 hs
        exact hfail k hk c hc
    have hos : (call_openrouter oB oc).resp.success = true :=
      (callProvider_success_iff oB "openrouter" "OpenRouter" oc.max_retries).2 hex
    have hewf : (extract_with_fallback gB oB gc oc).1 = (call_openrouter oB oc).resp := by
      simp [extract_with_fallback, hgf, hos]
    rw [hewf]
    exact ⟨hos, callProvider_provider oB "openrouter" "OpenRouter" oc.max_retries⟩
  · intro p fb parse hsucc
    simp [extract_invoice, hsucc]

/-- C5 witness: a primary that succeeds immediately is returned with zero
fallback invocations. -/
theorem fallback_first_success_witness :
    extract_with_fallback (fun _ => .ok "content") alwaysFailOpenRouter {} { api_key := "k" } =
      ((call_gemini (fun _ => .ok "content") {}).resp,
        (call_gemini (fun _ => .ok "content") {}).attempts, 0) :=
  ((fallback_first_success (fun _ => .ok "content") alwaysFailOpenRouter {}
      { api_key := "k" }).1 ⟨0, Nat.zero_le 2, "content", rfl⟩).1

/-- C1 counterexample: when both providers fail every attempt, the prototype
gateway `extract_with_fallback` returns an error text that references only the
fallback provider's final error — the primary's error message is not contained
in it, so the returned error does not concatenate both providers' messages. -/
theorem both_fail_error_text_counterexample :
    (extract_with_fallback alwaysFailGemini alwaysFailOpenRouter {} { api_key := "k" }).1.success
        = false ∧
    (extract_with_fallback alwaysFailGemini alwaysFailOpenRouter {} { api_key := "k" }).1.error_message
        = some "OpenRouter failed after 2 retries: openrouter transport error" ∧
    ¬ ("gemini transport error".data <:+:
        "OpenRouter failed after 2 retries: openrouter transport error".data) := by
  refine ⟨by decide, by decide, by decide⟩

/-- C1 amended: when every attempt of both providers fails, both gateways
return a typed failure (`success = false`); the functions pipeline
(`extract_invoice`) returns an error text containing both providers' final
error messages, while the prototype gateway (`extract_with_fallback`) returns
the fallback provider's response, whose error text carries only the fallback's
final error. -/
theorem both_fail_returns_typed_failure (gB oB : ProviderBehavior)
    (gc : GeminiConfig) (oc : OpenRouterConfig)
    (presp fresp : LLMResponse) (parse : ParseFn)
    (hg : ∀ k c, gB k ≠ .ok c) (ho : ∀ k c, oB k ≠ .ok c)
    (hp : presp.success = false) (hf : fresp.success = false) :
    (extract_with_fallback gB oB gc oc).1.success = false ∧
    (extract_with_fallback gB oB gc oc).1 = (call_openrouter oB oc).resp ∧
    (extract_invoice presp (some fresp) parse).success = false ∧
    ∃ err, (extract_invoice presp (some fresp) parse).error = some err ∧
      (presp.error_message.getD "LLM extraction failed").data <:+: err.data ∧
      (fresp.error_message.getD "LLM extraction failed").data <:+: err.data := by
  have hgf : (call_gemini gB gc).resp.success = false := by
    cases hs : (call_gemini gB gc).resp.success
    · rfl
    · exfalso
      obtain ⟨k, hk, c, hc⟩ :=
        (callProvider_success_iff gB "gemini" "Gemini" gc.max_retries).1 hs
      exact hg k c hc
  have hof : (call_openrouter oB oc).resp.success = false := by
    cases hs : (call_openrouter oB oc).resp.success
    · rfl
    · exfalso
      obtain ⟨k, hk, c, hc⟩ :=
        (callProvider_success_iff oB "openrouter" "OpenRouter" oc.max_retries).1 hs
      exact ho k c hc
  have hewf : (extract_with_fallback gB oB gc oc).1 = (call_openrouter oB oc).resp := by
    simp [extract_with_fallback, hgf, hof]
  have hei : extract_invoice presp (some fresp) parse =
      { success := false, invoice := none, provider := "openrouter"
        latency_ms := presp.latency_ms + fresp.latency_ms, confidence := 0
        error := some ("Both providers failed. Primary: " ++
            (presp.error_message.getD "LLM extraction failed") ++ ". Fallback: " ++
            (fresp.error_message.getD "LLM extraction failed"))
        raw_response := fresp.content } := by
    simp [extract_invoice, tryExtraction, hp, hf]
  refine ⟨by rw [hewf]; exact hof, hewf, by rw [hei], ?_⟩
  rw [hei]
  refine ⟨_, rfl, ?_, ?_⟩
  · rw [String.data_append, String.data_append, String.data_append]
    exact ⟨"Both providers failed. Primary: ".data,
      ". Fallback: ".data ++ (fresp.error_message.getD "LLM extraction failed").data, by simp⟩
  · rw [String.data_append, String.data_append, String.data_append]
    exact ⟨("Both providers failed. Primary: ".data ++
      (presp.error_message.getD "LLM extraction failed").data) ++ ". Fallback: ".data, [], by simp⟩

/-- C1 witness: concrete always-failing providers and failed adapter
responses exercise the amended claim. -/
theorem both_fail_returns_typed_failure_witness :
    (extract_with_fallback alwaysFailGemini alwaysFailOpenRouter {} { api_key := "k" }).1
        = (call_openrouter alwaysFailOpenRouter { api_key := "k" }).resp ∧
    (extract_invoice primaryFailResponse (some fallbackFailResponse) parseAlwaysOk).success
        = false :=
  ⟨(both_fail_returns_typed_failure alwaysFailGemini alwaysFailOpenRouter {} { api_key := "k" }
      primaryFailResponse fallbackFailResponse parseAlwaysOk
      (fun _ _ h => Except.noConfusion h) (fun _ _ h => Except.noConfusion h) rfl rfl).2.1,
   (both_fail_returns_typed_failure alwaysFailGemini alwaysFailOpenRouter {} { api_key := "k" }
      primaryFailResponse fallbackFailResponse parseAlwaysOk
      (fun _ _ h => Except.noConfusion h) (fun _ _ h => Except.noConfusion h) rfl rfl).2.2.1⟩

/-! ### Claims about the schema validator's fence stripping -/

/-- C7 counterexample: raw text that is itself already a fenced block breaks
the universal claim — unwrapped it cleans to its JSON payload, but wrapped in
a further fence it cleans back to the fenced text (the fence is stripped only
once), so the two parse inputs differ and the wrapped one still begins with a
fence, which `json.loads` rejects. -/
theorem fenced_wrap_counterexample :
    cleanContent alreadyFenced = "[1, 2]".data ∧
    cleanContent (wrapFence alreadyFenced) = alreadyFenced ∧
    cleanContent (wrapFence alreadyFenced) ≠ cleanContent alreadyFenced ∧
    startsWithFence (cleanContent (wrapFence alreadyFenced)) = true := by
  refine ⟨by decide, by decide, by decide, by decide⟩

/-- C7 amended: for every raw text whose stripped form does not itself begin
with a fence marker, wrapping it in a fenced code block (with any surrounding
whitespace) cleans to exactly the same text as the unwrapped content, so both
parse identically. -/
theorem fenced_wrap_equivalence (t ws1 ws2 : PyStr)
    (h1 : ∀ c ∈ ws1, isPySpace c = true) (h2 : ∀ c ∈ ws2, isPySpace c = true)
    (ht : startsWithFence (pyStrip t) = false) :
    cleanContent (ws1 ++ (wrapFence t ++ ws2)) = cleanContent t ∧
    cleanContent t = pyStrip t := by
  have hun : cleanContent t = pyStrip t := by
    simp [cleanContent, ht]
  rw [cleanContent_wrapFence t ws1 ws2 h1 h2]
  exact ⟨hun.symm, hun⟩

/-- C7 witness: a JSON array payload wrapped in a fence with surrounding
whitespace cleans to the same text as the bare payload. -/
theorem fenced_wrap_equivalence_witness :
    cleanContent ([' '] ++ (wrapFence "[1, 2]".data ++ ['\n'])) = cleanContent "[1, 2]".data :=
  (fenced_wrap_equivalence "[1, 2]".data [' '] ['\n']
    (by intro c hc; simp at hc; subst hc; decide)
    (by intro c hc; simp at hc; subst hc; decide)
    (by decide)).1

end InvoiceExtractor
